import Mathlib

/-!
Verification of the chat-session logic of the AI-Resume-Agent repository.

The definitions below are a shallow embedding of the frontend hook
useChatSession.js (the file that owns session persistence, the resume
modal, session creation and the streaming chat turn).  JavaScript string
primitives (trim, toLowerCase, startsWith, split, slice) are embedded as
executable functions on the character list of a string so that the kernel
can evaluate them on concrete inputs.
-/

/-- One character: the ASCII apostrophe, used to build the string literals
of the source without writing a quote character inside a string. -/
def apos : String := String.singleton (Char.ofNat 39)

/-- JavaScript String.prototype.trim: drop whitespace from both ends. -/
def jsTrim (s : String) : String :=
  String.mk (((s.data.dropWhile Char.isWhitespace).reverse.dropWhile Char.isWhitespace).reverse)

/-- JavaScript String.prototype.toLowerCase (ASCII range, which is all the
source compares against). -/
def jsToLower (s : String) : String :=
  String.mk (s.data.map Char.toLower)

/-- JavaScript s.startsWith(pre). -/
def jsStartsWith (s pre : String) : Bool :=
  pre.data.isPrefixOf s.data

/-- JavaScript line.slice(6), dropping the six characters of the
SSE marker at the start of a data line. -/
def jsSlice6 (s : String) : String :=
  String.mk (s.data.drop 6)

/-- Helper for splitting a character list at newline characters,
keeping empty segments, as JavaScript split does. -/
def splitNewlineAux : List Char → List Char → List String
  | [], acc => [String.mk acc.reverse]
  | x :: xs, acc =>
    if x = '\n' then String.mk acc.reverse :: splitNewlineAux xs []
    else splitNewlineAux xs (x :: acc)

/-- JavaScript text.split(newline). -/
def jsSplitNewline (s : String) : List String :=
  splitNewlineAux s.data []

/-- JavaScript a || b on strings: the empty string is falsy. -/
def jsOr (a b : String) : String :=
  if a = "" then b else a

/-- Concatenation of a list of strings, in order. -/
def concatAll (l : List String) : String :=
  l.foldr (fun a b => a ++ b) ""

/-- useChatSession.js: SESSION_TTL_MS = 24 * 60 * 60 * 1000. -/
def SESSION_TTL_MS : Int := 24 * 60 * 60 * 1000

/-- A chat message as kept in the messages state of useChatSession.js:
an id from Date.now(), a role string and the text content. -/
structure Message where
  id : Nat
  role : String
  content : String
deriving DecidableEq

/-- The state owned by the useChatSession hook: user fields, chat fields,
the loading ref mirrored from the isLoading state, and the error state. -/
structure ChatState where
  userName : String
  company : String
  jobPosting : String
  sessionId : String
  hasStarted : Bool
  suggestedPrompts : Option (List String)
  messages : List Message
  isLoading : Bool
  isLoadingRef : Bool
  error : Option String
deriving DecidableEq

/-- The initial hook state: every useState initializer of useChatSession.js. -/
def initState : ChatState :=
  { userName := "", company := "", jobPosting := "", sessionId := "",
    hasStarted := false, suggestedPrompts := none, messages := [],
    isLoading := false, isLoadingRef := false, error := none }

/-- The object written to localStorage under the resumeChatSession key by the
save effect of useChatSession.js. -/
structure SavedSession where
  userName : String
  company : String
  jobPosting : String
  sessionId : String
  suggestedPrompts : Option (List String)
  messages : List Message
  savedAt : Int
deriving DecidableEq

/-- Result of the restore-on-mount effect: the storage content afterwards,
whether the resume modal is shown, and the pending session it holds. -/
structure RestoreResult where
  storage : Option SavedSession
  showResumeModal : Bool
  pendingSession : Option SavedSession
deriving DecidableEq

/-- The restore effect of useChatSession.js (runs once on mount): reads the
saved session, removes it when more than SESSION_TTL_MS elapsed since its
savedAt stamp, and otherwise shows the resume modal when the saved session
has a user name and at least one message.  The savedAt truthiness test of
the source is the nonzero test here. -/
def restoreOnMount (now : Int) (stored : Option SavedSession) : RestoreResult :=
  match stored with
  | none => ⟨none, false, none⟩
  | some s =>
    if s.savedAt ≠ 0 ∧ now - s.savedAt > SESSION_TTL_MS then ⟨none, false, none⟩
    else if s.userName ≠ "" ∧ 0 < s.messages.length then ⟨some s, true, some s⟩
    else ⟨some s, false, none⟩

/-- The save effect of useChatSession.js: whenever the chat has started and
there is at least one message, overwrite the saved session with the current
state, stamping savedAt with the current time. -/
def saveEffect (st : ChatState) (now : Int) (stored : Option SavedSession) : Option SavedSession :=
  if st.hasStarted = true ∧ 0 < st.messages.length then
    some { userName := st.userName, company := st.company, jobPosting := st.jobPosting,
           sessionId := st.sessionId, suggestedPrompts := st.suggestedPrompts,
           messages := st.messages, savedAt := now }
  else stored

/-- The body of the POST /api/v1/session request built by handleStart. -/
structure SessionRequest where
  user_name : String
  company : Option String
  job_posting : Option String
  job_url : Option String
  turnstile_token : Option String
deriving DecidableEq

/-- handleStart of useChatSession.js, request construction: the input is
treated as a URL when its trimmed lowercased form starts with http, and the
job text and job URL fields are filled accordingly; empty strings are falsy
and become null. -/
def buildSessionRequest (name companyName jobInput turnstileToken : String) : SessionRequest :=
  let isUrl := jsStartsWith (jsToLower (jsTrim jobInput)) "http"
  { user_name := name
    company := if companyName = "" then none else some companyName
    job_posting := if isUrl = true then none else (if jobInput = "" then none else some jobInput)
    job_url := if isUrl = true then some jobInput else none
    turnstile_token := if turnstileToken = "" then none else some turnstileToken }

/-- The successful JSON body of POST /api/v1/session as read by handleStart. -/
structure SessionResponse where
  session_id : String
  welcome_message : String
  suggested_prompts : Option (List String)
deriving DecidableEq

/-- The part of the local fallback welcome template that follows the name. -/
def welcomeTail (companyName : String) : String :=
  "! 👋 I" ++ (apos ++ ("m an AI assistant here to tell you about Rayhan Patel" ++ (apos ++
    ("s professional background and qualifications" ++
    ((if companyName = "" then "" else " for " ++ companyName) ++
      ". Feel free to ask me anything about his experience, skills, or projects. You can use the quick questions below or type your own!")))))

/-- The local fallback welcome message template of handleStart. -/
def localWelcome (name companyName : String) : String :=
  "Hi " ++ (name ++ welcomeTail companyName)

/-- handleStart of useChatSession.js: resp models the backend call, where
some means the fetch resolved with an ok response and none covers every
failure path (network error, timeout abort, non-ok status), in which case
the locally generated uuid and welcome are kept.  The state ends with the
single welcome message as the whole message list and the chat started. -/
def handleStart (name companyName jobInput uuid : String) (now : Nat)
    (resp : Option SessionResponse) (st : ChatState) : ChatState :=
  let sid := match resp with | some d => d.session_id | none => uuid
  let welcome := match resp with | some d => d.welcome_message | none => localWelcome name companyName
  let prompts := match resp with | some d => d.suggested_prompts | none => none
  { st with userName := name, company := companyName, jobPosting := jobInput,
            sessionId := sid, suggestedPrompts := prompts,
            messages := [{ id := now, role := "assistant", content := welcome }],
            hasStarted := true }

/-- Modelled from the spec: the backend session-creation endpoint is not part
of the sources under verification (only the frontend caller is).  Per the
external-interface contract and concrete scenario A of the spec, a successful
response carries a session identifier and a welcome message containing the
display name. -/
def specSessionResponseOk (name : String) (d : SessionResponse) : Prop :=
  d.session_id ≠ "" ∧ ∃ p q, d.welcome_message = p ++ (name ++ q)

/-- Result of JSON.parse on one SSE data payload, as used by the stream
loop: the parse either throws, or yields a value whose chunk field is
either absent (or not a string, hence never appended) or a string. -/
inductive ParsedLine where
  | parseFail
  | parsed (chunk : Option String)

/-- One line of the stream read loop of sendMessage, after the data filter:
slice off the marker, skip the end-of-stream token, parse, and append a
truthy chunk to the in-flight assistant message (the empty string is falsy
and is skipped). -/
def applyLine (jp : String → ParsedLine) (aiId : Nat) (msgs : List Message) (line : String) : List Message :=
  let data := jsSlice6 line
  if data = "[DONE]" then msgs
  else
    match jp data with
    | ParsedLine.parseFail => msgs
    | ParsedLine.parsed none => msgs
    | ParsedLine.parsed (some c) =>
      if c = "" then msgs
      else msgs.map (fun m => if m.id = aiId then { m with content := m.content ++ c } else m)

/-- The lines of one decoded read that the loop iterates: split the text at
newlines and keep the lines that start with the SSE data marker. -/
def sseLines (text : String) : List String :=
  (jsSplitNewline text).filter (fun line => jsStartsWith line "data: ")

/-- Processing of one decoded read value of the stream loop. -/
def applyRead (jp : String → ParsedLine) (aiId : Nat) (msgs : List Message) (text : String) : List Message :=
  (sseLines text).foldl (applyLine jp aiId) msgs

/-- The whole stream read loop of sendMessage over the successive decoded
read values, in order. -/
def processReads (jp : String → ParsedLine) (aiId : Nat) (msgs : List Message) (reads : List String) : List Message :=
  reads.foldl (applyRead jp aiId) msgs

/-- The chunk payload contributed by one data line: none for the
end-of-stream marker, unparseable payloads and falsy chunk fields. -/
def lineChunk (jp : String → ParsedLine) (line : String) : Option String :=
  let data := jsSlice6 line
  if data = "[DONE]" then none
  else
    match jp data with
    | ParsedLine.parsed (some c) => if c = "" then none else some c
    | _ => none

/-- The chunk payloads of one decoded read, in order. -/
def readChunks (jp : String → ParsedLine) (text : String) : List String :=
  (sseLines text).filterMap (lineChunk jp)

/-- The chunk payloads of the whole stream, in order. -/
def streamChunks (jp : String → ParsedLine) : List String → List String
  | [] => []
  | r :: rs => readChunks jp r ++ streamChunks jp rs

/-- Modelled from the spec: the non-streaming chat endpoint is not part of
the sources under verification; per the spec it returns the full assistant
reply, which for a deterministic backend emitting the given fragments is
their in-order concatenation. -/
def nonStreamingReply (frags : List String) : String :=
  concatAll frags

/-- The fixed user-safe fallback text of the catch branch of sendMessage. -/
def fallbackContent : String :=
  "I apologize, but I" ++ apos ++ "m having trouble connecting right now. Please try again in a moment."

/-- The rate-limit error text set when the thrown error carries status 429. -/
def rateLimitErrorText : String :=
  "Too many requests. Please wait a minute before sending another message."

/-- The generic error text used when the thrown error has a falsy message. -/
def genericErrorText : String :=
  "Failed to send message. Please try again."

/-- The detail field of the error body of a non-ok chat response, as read
by sendMessage: absent, the JSON value null, a string, or an object with
message and error fields (absent fields and empty strings are both falsy)
and a JSON rendering used as the last resort. -/
inductive Detail where
  | absent
  | null
  | str (s : String)
  | obj (message errField jsonText : String)

/-- The message of the TypeError that reading a property of null raises in
the V8 engine the frontend is served to.  The claims below depend only on
it being a truthy text distinct from the fixed client messages. -/
def nullDetailTypeErrorText : String :=
  "Cannot read properties of null (reading " ++ (apos ++ ("message" ++ (apos ++ ")")))

/-- sendMessage, the thrown value of the non-ok branch.  A JSON null detail
passes the typeof-object test of the source (typeof null is object in
JavaScript), so reading detail.message raises a TypeError before any
status is attached to the error: that throwing path is the Except.error
case, carrying the TypeError message.  Every other detail yields the
constructed message — an object detail gives message, else error, else its
JSON text; a string detail gives itself when truthy; otherwise the HTTP
template — thrown as an error that carries the response status
(the Except.ok case). -/
def httpThrown (status : Nat) (d : Detail) : Except String String :=
  match d with
  | Detail.null => Except.error nullDetailTypeErrorText
  | Detail.absent => Except.ok ("HTTP error! status: " ++ toString status)
  | Detail.str s => Except.ok (jsOr s ("HTTP error! status: " ++ toString status))
  | Detail.obj m e j => Except.ok (jsOr m (jsOr e j))

/-- The update applied by the catch branch of sendMessage to each message:
the in-flight assistant message gets the fixed fallback content. -/
def toFallback (aiId : Nat) (m : Message) : Message :=
  if m.id = aiId then { m with content := fallbackContent } else m

/-- The catch branch of sendMessage for a non-abort error: set the error
state (the rate-limit text when the error carries status 429, otherwise the
truthy error message or the generic text) and replace the in-flight
assistant message content with the fixed fallback. -/
def applyCatch (aiId : Nat) (status : Option Nat) (msg : String) (st : ChatState) : ChatState :=
  let errText := if status = some 429 then rateLimitErrorText else jsOr msg genericErrorText
  { st with error := some errText, messages := st.messages.map (toFallback aiId) }

/-- How a chat turn of sendMessage ends after the fetch resolved ok: the
read loop ran over the given decoded reads and then either completed, was
aborted (AbortError), or threw with the given error message. -/
inductive StreamEnd where
  | done
  | aborted
  | failed (msg : String)

/-- The fate of the fetch of one sendMessage call: a non-ok response with
its status and error-body detail, or an ok response with its stream. -/
inductive Outcome where
  | httpRejected (status : Nat) (detail : Detail)
  | streamed (reads : List String) (ending : StreamEnd)

/-- The result of one sendMessage call: the hook state afterwards and
whether a network request was issued. -/
structure SendResult where
  state : ChatState
  requested : Bool
deriving DecidableEq

/-- The opening of an admitted sendMessage call: clear the error state,
append the user message and the empty in-flight assistant message (with ids
from the clock, the assistant id one above), and set both loading flags. -/
def turnStart (now : Nat) (text : String) (st : ChatState) : ChatState :=
  { st with error := none,
            messages := st.messages ++
              [{ id := now, role := "user", content := text },
               { id := now + 1, role := "assistant", content := "" }],
            isLoading := true, isLoadingRef := true }

/-- The try block of an admitted sendMessage call after the fetch: a non-ok
response throws into the catch branch — with its status when the message
construction succeeds, and as a status-less TypeError when the detail is
JSON null; an ok response runs the stream read loop, after which the turn
completes, returns on abort, or falls into the catch branch without a
status. -/
def turnBody (jp : String → ParsedLine) (aiId : Nat) (outcome : Outcome) (st1 : ChatState) : ChatState :=
  match outcome with
  | Outcome.httpRejected status detail =>
    match httpThrown status detail with
    | Except.error msg => applyCatch aiId none msg st1
    | Except.ok msg => applyCatch aiId (some status) msg st1
  | Outcome.streamed reads ending =>
    let stS : ChatState := { st1 with messages := processReads jp aiId st1.messages reads }
    match ending with
    | StreamEnd.done => stS
    | StreamEnd.aborted => stS
    | StreamEnd.failed msg => applyCatch aiId none msg stS

/-- sendMessage of useChatSession.js as one big step: the guard returns
immediately on blank input or while the loading ref is set; otherwise the
turn opens, the request is issued, the outcome is handled (stream loop,
abort return, or catch branch), and the finally block clears both loading
flags. -/
def sendMessage (jp : String → ParsedLine) (now : Nat) (text : String)
    (outcome : Outcome) (st : ChatState) : SendResult :=
  if jsTrim text = "" ∨ st.isLoadingRef = true then ⟨st, false⟩
  else
    let st2 : ChatState := turnBody jp (now + 1) outcome (turnStart now text st)
    ⟨{ st2 with isLoading := false, isLoadingRef := false }, true⟩

/-- The update applied to the in-flight assistant message by one truthy
chunk (the lambda inside the stream loop of sendMessage). -/
def bump (aiId : Nat) (c : String) (m : Message) : Message :=
  if m.id = aiId then { m with content := m.content ++ c } else m

/-- The roles of a message list, in order. -/
def rolesOf (msgs : List Message) : List String :=
  msgs.map (fun m => m.role)

/-- No two consecutive assistant entries in a role list. -/
def noConsecAssistant : List String → Bool
  | a :: b :: rest =>
    if a = "assistant" ∧ b = "assistant" then false else noConsecAssistant (b :: rest)
  | _ => true

/-- One public mutation of the message sequence: a handleStart call with its
backend outcome, or a sendMessage call with its outcome. -/
inductive HookEvent where
  | start (name companyName jobInput uuid : String) (now : Nat) (resp : Option SessionResponse)
  | send (jp : String → ParsedLine) (now : Nat) (text : String) (outcome : Outcome)

/-- Apply one event to the hook state. -/
def stepEvent (st : ChatState) (e : HookEvent) : ChatState :=
  match e with
  | HookEvent.start name companyName jobInput uuid now resp =>
    handleStart name companyName jobInput uuid now resp st
  | HookEvent.send jp now text outcome =>
    (sendMessage jp now text outcome st).state

/-- Run a sequence of events from the initial hook state. -/
def runEvents (evs : List HookEvent) : ChatState :=
  evs.foldl stepEvent initState

/-! ## Concrete states and inputs used by the witness theorems -/

/-- A parse function for concrete stream inputs: the payload a parses to a
chunk A, the payload b to a chunk B, anything else fails to parse. -/
def jpAB : String → ParsedLine := fun s =>
  if s = "a" then ParsedLine.parsed (some "A")
  else if s = "b" then ParsedLine.parsed (some "B")
  else ParsedLine.parseFail

/-- A started chat state with one welcome message, as left by handleStart. -/
def danaState : ChatState :=
  { initState with
    userName := "Dana", hasStarted := true,
    messages := [{ id := 1, role := "assistant", content := "Hi Dana!" }] }

/-- An expired saved session: last saved at time 1, looked up one
millisecond past the TTL. -/
def expiredSession : SavedSession :=
  { userName := "Dana", company := "", jobPosting := "", sessionId := "",
    suggestedPrompts := none,
    messages := [{ id := 1, role := "assistant", content := "Hi Dana!" }],
    savedAt := 1 }

/-- A stored session produced by saving danaState at time 1000 and saving it
again 20 hours (72000000 ms) later. -/
def c1Stored : Option SavedSession :=
  saveEffect danaState (1000 + 72000000) (saveEffect danaState 1000 none)

/-- A state whose loading ref is set: a previous turn is still in flight. -/
def busyState : ChatState :=
  { initState with isLoadingRef := true }

/-! ## Helper lemmas -/

theorem str_append_empty (s : String) : s ++ "" = s := by
  cases s
  show String.mk _ = _
  simp

theorem str_empty_append (s : String) : "" ++ s = s := by
  cases s
  rfl

theorem str_data_append (a b : String) : (a ++ b).data = a.data ++ b.data := by
  cases a
  cases b
  rfl

theorem bump_bump (aiId : Nat) (c d : String) (m : Message) :
    bump aiId d (bump aiId c m) = bump aiId (c ++ d) m := by
  cases m with
  | mk i r co =>
    by_cases h : i = aiId
    · simp [bump, h, String.append_assoc]
    · simp [bump, h]

theorem bump_role (aiId : Nat) (c : String) (m : Message) : (bump aiId c m).role = m.role := by
  unfold bump
  split <;> rfl

theorem bump_fresh (aiId : Nat) (c : String) (m : Message) (h : m.id ≠ aiId) :
    bump aiId c m = m := by
  unfold bump
  rw [if_neg h]

theorem toFallback_role (aiId : Nat) (m : Message) : (toFallback aiId m).role = m.role := by
  unfold toFallback
  split <;> rfl

theorem toFallback_fresh (aiId : Nat) (m : Message) (h : m.id ≠ aiId) :
    toFallback aiId m = m := by
  unfold toFallback
  rw [if_neg h]

theorem map_bump_empty (aiId : Nat) (msgs : List Message) :
    msgs.map (bump aiId "") = msgs := by
  have h : ∀ m ∈ msgs, bump aiId "" m = m := by
    intro m _
    cases m with
    | mk i r co => by_cases h2 : i = aiId <;> simp [bump, h2, str_append_empty]
  rw [List.map_congr_left h]
  exact List.map_id' msgs

theorem map_fresh (aiId : Nat) (f : Message → Message)
    (hf : ∀ m, m.id ≠ aiId → f m = m) (msgs : List Message)
    (h : ∀ m ∈ msgs, m.id ≠ aiId) : msgs.map f = msgs := by
  rw [List.map_congr_left (fun m hm => hf m (h m hm))]
  exact List.map_id' msgs

theorem foldl_map_bump (aiId : Nat) (cs : List String) (msgs : List Message) :
    cs.foldl (fun ms c => ms.map (bump aiId c)) msgs = msgs.map (bump aiId (concatAll cs)) := by
  induction cs generalizing msgs with
  | nil => exact (map_bump_empty aiId msgs).symm
  | cons c cs ih =>
    show cs.foldl _ (msgs.map (bump aiId c)) = _
    rw [ih, List.map_map]
    apply List.map_congr_left
    intro m _
    show bump aiId (concatAll cs) (bump aiId c m) = bump aiId (concatAll (c :: cs)) m
    rw [bump_bump]
    rfl

theorem applyLine_eq (jp : String → ParsedLine) (aiId : Nat) (msgs : List Message) (line : String) :
    applyLine jp aiId msgs line =
      (match lineChunk jp line with
       | none => msgs
       | some c => msgs.map (bump aiId c)) := by
  unfold applyLine lineChunk bump
  by_cases h : jsSlice6 line = "[DONE]"
  · simp [h]
  · simp only [h, if_false]
    cases jp (jsSlice6 line) with
    | parseFail => rfl
    | parsed oc =>
      cases oc with
      | none => rfl
      | some c => by_cases hc : c = "" <;> simp [hc]

theorem foldl_applyLine_eq (jp : String → ParsedLine) (aiId : Nat) (lines : List String) (msgs : List Message) :
    lines.foldl (applyLine jp aiId) msgs =
      (lines.filterMap (lineChunk jp)).foldl (fun ms c => ms.map (bump aiId c)) msgs := by
  induction lines generalizing msgs with
  | nil => rfl
  | cons l ls ih =>
    show ls.foldl _ (applyLine jp aiId msgs l) = _
    rw [applyLine_eq]
    rcases h : lineChunk jp l with _ | c <;> simp only [h, List.filterMap_cons]
    · exact ih msgs
    · exact ih (msgs.map (bump aiId c))

theorem concatAll_append (a b : List String) : concatAll (a ++ b) = concatAll a ++ concatAll b := by
  induction a with
  | nil =>
    show concatAll b = concatAll [] ++ concatAll b
    rw [show concatAll [] = "" from rfl, str_empty_append]
  | cons x xs ih =>
    show x ++ concatAll (xs ++ b) = (x ++ concatAll xs) ++ concatAll b
    rw [ih, String.append_assoc]

theorem processReads_eq (jp : String → ParsedLine) (aiId : Nat) (reads : List String) (msgs : List Message) :
    processReads jp aiId msgs reads = msgs.map (bump aiId (concatAll (streamChunks jp reads))) := by
  induction reads generalizing msgs with
  | nil => exact (map_bump_empty aiId msgs).symm
  | cons r rs ih =>
    show rs.foldl _ (applyRead jp aiId msgs r) = _
    have h1 : applyRead jp aiId msgs r = msgs.map (bump aiId (concatAll (readChunks jp r))) := by
      unfold applyRead
      rw [foldl_applyLine_eq, foldl_map_bump]
      rfl
    rw [show rs.foldl (applyRead jp aiId) (applyRead jp aiId msgs r) = processReads jp aiId (applyRead jp aiId msgs r) rs from rfl]
    rw [ih, h1, List.map_map]
    apply List.map_congr_left
    intro m _
    show bump aiId (concatAll (streamChunks jp rs)) (bump aiId (concatAll (readChunks jp r)) m) = _
    rw [bump_bump, ← concatAll_append]
    rfl

theorem rolesOf_append (a b : List Message) : rolesOf (a ++ b) = rolesOf a ++ rolesOf b :=
  List.map_append _ a b

theorem rolesOf_map_of_role_eq (f : Message → Message) (hf : ∀ m, (f m).role = m.role)
    (msgs : List Message) : rolesOf (msgs.map f) = rolesOf msgs := by
  unfold rolesOf
  rw [List.map_map]
  exact List.map_congr_left (fun m _ => hf m)

theorem sendMessage_admitted (jp : String → ParsedLine) (now : Nat) (text : String)
    (outcome : Outcome) (st : ChatState)
    (h1 : jsTrim text ≠ "") (h2 : st.isLoadingRef = false) :
    sendMessage jp now text outcome st =
      ⟨{ turnBody jp (now + 1) outcome (turnStart now text st) with
           isLoading := false, isLoadingRef := false }, true⟩ := by
  unfold sendMessage
  rw [if_neg]
  intro hc
  rcases hc with hc | hc
  · exact h1 hc
  · rw [h2] at hc
    cases hc

/-! ## Claim C1 -/

/-- Claim C1, counterexample: a session created (first saved) at time 1000
and saved again 20 hours later is still offered for resume 30 hours after
its creation, because the restore effect measures the TTL from the savedAt
stamp, which every save refreshes — the claim says it should be treated as
absent once 24 hours passed since creation. -/
theorem restore_creation_ttl_counterexample :
    ((1000 + 108000000 : Int) - 1000 > SESSION_TTL_MS) ∧
    (restoreOnMount (1000 + 108000000) c1Stored).showResumeModal = true ∧
    (restoreOnMount (1000 + 108000000) c1Stored).storage ≠ none := by
  decide

/-- Claim C1, amended: the resume-eligibility lookup on mount measures the
24-hour TTL against the savedAt stamp of the stored session — the time of
the last save, which every save effect refreshes — not against the session
creation time; a stored session is removed and no resume modal is shown
exactly when more than the TTL elapsed since its last save. -/
theorem restore_expiry_uses_last_save (now t : Int) (s : SavedSession) (st : ChatState)
    (stored : Option SavedSession)
    (hsv : s.savedAt ≠ 0) (hexp : now - s.savedAt > SESSION_TTL_MS)
    (hst : st.hasStarted = true) (hmsg : 0 < st.messages.length) :
    restoreOnMount now (some s) = ⟨none, false, none⟩ ∧
    (saveEffect st t stored).map (fun x => x.savedAt) = some t := by
  constructor
  · show (if s.savedAt ≠ 0 ∧ now - s.savedAt > SESSION_TTL_MS then
        (⟨none, false, none⟩ : RestoreResult)
      else if s.userName ≠ "" ∧ 0 < s.messages.length then ⟨some s, true, some s⟩
      else ⟨some s, false, none⟩) = ⟨none, false, none⟩
    rw [if_pos ⟨hsv, hexp⟩]
  · unfold saveEffect
    rw [if_pos ⟨hst, hmsg⟩]
    rfl

/-- Witness for the amended C1 theorem at a concrete expired session. -/
theorem restore_expiry_uses_last_save_witness :
    ((86400002 : Int) - 1 > SESSION_TTL_MS) ∧
    (restoreOnMount 86400002 (some expiredSession) = ⟨none, false, none⟩ ∧
      (saveEffect danaState 5 none).map (fun x => x.savedAt) = some 5) :=
  ⟨by decide,
   restore_expiry_uses_last_save 86400002 5 expiredSession danaState none
     (by decide) (by decide) (by decide) (by decide)⟩

/-! ## Claim C9 -/

/-- Claim C9: in every session-creation request body, the job text and the
job URL fields are mutually exclusive (at most one is non-null), and the
job URL field is filled exactly when the trimmed lowercased input starts
with http. -/
theorem session_request_job_fields (name companyName jobInput turnstileToken : String) :
    (¬((buildSessionRequest name companyName jobInput turnstileToken).job_posting ≠ none ∧
       (buildSessionRequest name companyName jobInput turnstileToken).job_url ≠ none)) ∧
    ((buildSessionRequest name companyName jobInput turnstileToken).job_url ≠ none ↔
      jsStartsWith (jsToLower (jsTrim jobInput)) "http" = true) := by
  unfold buildSessionRequest
  rcases hu : jsStartsWith (jsToLower (jsTrim jobInput)) "http" with _ | _
  · constructor
    · intro hc
      exact hc.2 (by simp [hu])
    · simp [hu]
  · constructor
    · intro hc
      exact hc.1 (by simp [hu])
    · simp [hu]

/-! ## Claim C10 -/

/-- Claim C10: a blank (empty or whitespace-only) query is a complete no-op
of sendMessage — the hook state is returned unchanged and no request is
issued. -/
theorem sendMessage_blank_noop (jp : String → ParsedLine) (now : Nat) (text : String)
    (outcome : Outcome) (st : ChatState) (h : jsTrim text = "") :
    sendMessage jp now text outcome st = ⟨st, false⟩ := by
  unfold sendMessage
  rw [if_pos (Or.inl h)]

/-- Witness for C10 at a whitespace-only input. -/
theorem sendMessage_blank_noop_witness :
    jsTrim "   " = "" ∧
    sendMessage jpAB 9 "   " (Outcome.streamed [] StreamEnd.done) initState = ⟨initState, false⟩ :=
  ⟨by decide, sendMessage_blank_noop jpAB 9 "   " (Outcome.streamed [] StreamEnd.done) initState (by decide)⟩

/-! ## Claim C4 -/

/-- Claim C4: while the loading ref is set, a sendMessage call returns
immediately with the state unchanged and no request issued — so at most one
assistant response is being generated at a time — and an admitted call
always ends (in every terminal outcome) with the loading ref cleared. -/
theorem sendMessage_busy_exclusion (jp : String → ParsedLine) (now : Nat) (text : String)
    (outcome : Outcome) (st : ChatState) :
    (st.isLoadingRef = true → sendMessage jp now text outcome st = ⟨st, false⟩) ∧
    (st.isLoadingRef = false → jsTrim text ≠ "" →
      (sendMessage jp now text outcome st).state.isLoadingRef = false ∧
      (sendMessage jp now text outcome st).requested = true) := by
  constructor
  · intro h
    unfold sendMessage
    rw [if_pos (Or.inr h)]
  · intro h2 h1
    rw [sendMessage_admitted jp now text outcome st h1 h2]
    exact ⟨rfl, rfl⟩

/-- Witness for C4: a busy state swallows the call; a free state runs the
turn and ends with the flag cleared. -/
theorem sendMessage_busy_exclusion_witness :
    busyState.isLoadingRef = true ∧
    sendMessage jpAB 0 "Q" (Outcome.streamed [] StreamEnd.done) busyState = ⟨busyState, false⟩ ∧
    ((sendMessage jpAB 0 "Q" (Outcome.streamed [] StreamEnd.done) initState).state.isLoadingRef = false ∧
     (sendMessage jpAB 0 "Q" (Outcome.streamed [] StreamEnd.done) initState).requested = true) :=
  ⟨rfl,
   (sendMessage_busy_exclusion jpAB 0 "Q" (Outcome.streamed [] StreamEnd.done) busyState).1 rfl,
   (sendMessage_busy_exclusion jpAB 0 "Q" (Outcome.streamed [] StreamEnd.done) initState).2 rfl (by decide)⟩

/-! ## Claims C6 and C2: the stream turn after the read loop -/

theorem turnStart_messages_bump (jp : String → ParsedLine) (now : Nat) (text : String)
    (reads : List String) (st : ChatState)
    (hfresh : ∀ m ∈ st.messages, m.id ≠ now + 1) :
    processReads jp (now + 1) (turnStart now text st).messages reads =
      st.messages ++
        [{ id := now, role := "user", content := text },
         { id := now + 1, role := "assistant", content := concatAll (streamChunks jp reads) }] := by
  rw [processReads_eq]
  show (st.messages ++
      [({ id := now, role := "user", content := text } : Message),
       ({ id := now + 1, role := "assistant", content := "" } : Message)]).map
    (bump (now + 1) (concatAll (streamChunks jp reads))) = _
  rw [List.map_append]
  congr 1
  · exact map_fresh (now + 1) _ (bump_fresh (now + 1) _) st.messages hfresh
  · simp only [List.map_cons, List.map_nil]
    rw [bump_fresh (now + 1) _ { id := now, role := "user", content := text }
      (Nat.ne_of_lt (Nat.lt_succ_self now))]
    congr 1
    unfold bump
    rw [if_pos rfl]
    rw [str_empty_append]

theorem map_toFallback_eq (now : Nat) (text c : String) (msgs : List Message)
    (hfresh : ∀ m ∈ msgs, m.id ≠ now + 1) :
    (msgs ++ [({ id := now, role := "user", content := text } : Message),
              ({ id := now + 1, role := "assistant", content := c } : Message)]).map (toFallback (now + 1)) =
      msgs ++ [{ id := now, role := "user", content := text },
               { id := now + 1, role := "assistant", content := fallbackContent }] := by
  rw [List.map_append]
  congr 1
  · exact map_fresh (now + 1) _ (toFallback_fresh (now + 1)) msgs hfresh
  · simp only [List.map_cons, List.map_nil]
    rw [toFallback_fresh (now + 1) { id := now, role := "user", content := text }
      (Nat.ne_of_lt (Nat.lt_succ_self now))]
    congr 1
    unfold toFallback
    rw [if_pos rfl]

/-- Claim C6: a turn that ends with an AbortError (the explicit client
abort triggered by reset) records no error, substitutes no fallback — the
fragments delivered before the abort stay exactly as delivered in the
in-flight assistant message — the single issued request is not retried, and
the loading flag is cleared. -/
theorem sendMessage_abort_no_error (jp : String → ParsedLine) (now : Nat) (text : String)
    (reads : List String) (st : ChatState)
    (h1 : jsTrim text ≠ "") (h2 : st.isLoadingRef = false)
    (hfresh : ∀ m ∈ st.messages, m.id ≠ now + 1) :
    (sendMessage jp now text (Outcome.streamed reads StreamEnd.aborted) st).state.error = none ∧
    (sendMessage jp now text (Outcome.streamed reads StreamEnd.aborted) st).state.messages =
      st.messages ++
        [{ id := now, role := "user", content := text },
         { id := now + 1, role := "assistant", content := concatAll (streamChunks jp reads) }] ∧
    (sendMessage jp now text (Outcome.streamed reads StreamEnd.aborted) st).state.isLoading = false ∧
    (sendMessage jp now text (Outcome.streamed reads StreamEnd.aborted) st).requested = true := by
  rw [sendMessage_admitted jp now text (Outcome.streamed reads StreamEnd.aborted) st h1 h2]
  refine ⟨rfl, ?_, rfl, rfl⟩
  show processReads jp (now + 1) (turnStart now text st).messages reads = _
  exact turnStart_messages_bump jp now text reads st hfresh

/-- Witness for C6: an aborted stream that had delivered one chunk keeps
that chunk and sets no error. -/
theorem sendMessage_abort_no_error_witness :
    jsTrim "Hi" ≠ "" ∧
    ((sendMessage jpAB 3 "Hi" (Outcome.streamed ["data: a"] StreamEnd.aborted) initState).state.error = none ∧
     (sendMessage jpAB 3 "Hi" (Outcome.streamed ["data: a"] StreamEnd.aborted) initState).state.messages =
       initState.messages ++
         [{ id := 3, role := "user", content := "Hi" },
          { id := 4, role := "assistant", content := concatAll (streamChunks jpAB ["data: a"]) }] ∧
     (sendMessage jpAB 3 "Hi" (Outcome.streamed ["data: a"] StreamEnd.aborted) initState).state.isLoading = false ∧
     (sendMessage jpAB 3 "Hi" (Outcome.streamed ["data: a"] StreamEnd.aborted) initState).requested = true) :=
  ⟨by decide,
   sendMessage_abort_no_error jpAB 3 "Hi" ["data: a"] initState (by decide) rfl (by decide)⟩

/-- Claim C2, counterexample: a turn that delivered the two fragments A and
B and then failed mid-stream ends with the assistant content being exactly
the fixed fallback text — the delivered fragments are not retained, and the
content is not the fragments with the fallback appended, contradicting the
claim that the partial fragments remain as-is. -/
theorem fallback_replaces_counterexample :
    streamChunks jpAB ["data: a\ndata: b"] = ["A", "B"] ∧
    (sendMessage jpAB 0 "Q" (Outcome.streamed ["data: a\ndata: b"] (StreamEnd.failed "boom")) initState).state.messages =
      [{ id := 0, role := "user", content := "Q" },
       { id := 1, role := "assistant", content := fallbackContent }] ∧
    fallbackContent ≠ "A" ++ ("B" ++ fallbackContent) := by
  decide

/-- Claim C2, amended: a turn that fails mid-stream after delivering
fragments ends with the in-flight assistant message content replaced
wholesale by the single fixed user-safe fallback message (the partial
fragments are not retained), with a non-null error state — distinct from a
normal completion, which leaves the error state null — and the loading flag
cleared. -/
theorem sendMessage_failure_replaces (jp : String → ParsedLine) (now : Nat) (text : String)
    (reads : List String) (msg : String) (st : ChatState)
    (h1 : jsTrim text ≠ "") (h2 : st.isLoadingRef = false)
    (hfresh : ∀ m ∈ st.messages, m.id ≠ now + 1) :
    (sendMessage jp now text (Outcome.streamed reads (StreamEnd.failed msg)) st).state.messages =
      st.messages ++
        [{ id := now, role := "user", content := text },
         { id := now + 1, role := "assistant", content := fallbackContent }] ∧
    (sendMessage jp now text (Outcome.streamed reads (StreamEnd.failed msg)) st).state.error =
      some (jsOr msg genericErrorText) ∧
    (sendMessage jp now text (Outcome.streamed reads StreamEnd.done) st).state.error = none ∧
    (sendMessage jp now text (Outcome.streamed reads (StreamEnd.failed msg)) st).state.isLoading = false := by
  rw [sendMessage_admitted jp now text (Outcome.streamed reads (StreamEnd.failed msg)) st h1 h2,
      sendMessage_admitted jp now text (Outcome.streamed reads StreamEnd.done) st h1 h2]
  refine ⟨?_, rfl, rfl, rfl⟩
  show (processReads jp (now + 1) (turnStart now text st).messages reads).map (toFallback (now + 1)) = _
  rw [turnStart_messages_bump jp now text reads st hfresh]
  exact map_toFallback_eq now text _ st.messages hfresh

/-- Witness for the amended C2 theorem on a stream that delivered two
fragments and then failed. -/
theorem sendMessage_failure_replaces_witness :
    jsTrim "Q" ≠ "" ∧
    ((sendMessage jpAB 0 "Q" (Outcome.streamed ["data: a\ndata: b"] (StreamEnd.failed "boom")) initState).state.messages =
       initState.messages ++
         [{ id := 0, role := "user", content := "Q" },
          { id := 1, role := "assistant", content := fallbackContent }] ∧
     (sendMessage jpAB 0 "Q" (Outcome.streamed ["data: a\ndata: b"] (StreamEnd.failed "boom")) initState).state.error =
       some (jsOr "boom" genericErrorText) ∧
     (sendMessage jpAB 0 "Q" (Outcome.streamed ["data: a\ndata: b"] StreamEnd.done) initState).state.error = none ∧
     (sendMessage jpAB 0 "Q" (Outcome.streamed ["data: a\ndata: b"] (StreamEnd.failed "boom")) initState).state.isLoading = false) :=
  ⟨by decide,
   sendMessage_failure_replaces jpAB 0 "Q" ["data: a\ndata: b"] "boom" initState (by decide) rfl (by decide)⟩

/-! ## Claim C7 -/

/-- Claim C7, counterexample: a non-ok response with status 500 whose error
body carries the rate-limit text as its detail message makes the client set
exactly the same error message as a 429 response does, so a non-429 status
does not always produce a different message than the rate-limit one. -/
theorem http_error_message_counterexample :
    (500 : Nat) ≠ 429 ∧
    (sendMessage jpAB 0 "Q"
        (Outcome.httpRejected 500 (Detail.obj rateLimitErrorText "" "x")) initState).state.error =
      some rateLimitErrorText ∧
    (sendMessage jpAB 0 "Q" (Outcome.httpRejected 429 Detail.absent) initState).state.error =
      some rateLimitErrorText := by
  decide

theorem turnBody_httpRejected_messages (jp : String → ParsedLine) (aiId : Nat)
    (status : Nat) (detail : Detail) (st1 : ChatState) :
    (turnBody jp aiId (Outcome.httpRejected status detail) st1).messages =
      st1.messages.map (toFallback aiId) := by
  cases detail <;> rfl

theorem httpThrown_ok_of_ne_null (status : Nat) (detail : Detail) (h : detail ≠ Detail.null) :
    ∃ msg, httpThrown status detail = Except.ok msg := by
  cases detail with
  | absent => exact ⟨_, rfl⟩
  | null => exact absurd rfl h
  | str s => exact ⟨_, rfl⟩
  | obj m e j => exact ⟨_, rfl⟩

theorem turnBody_httpRejected_ok_error (jp : String → ParsedLine) (aiId : Nat) (status : Nat)
    (detail : Detail) (msg : String) (st1 : ChatState)
    (hx : httpThrown status detail = Except.ok msg) :
    (turnBody jp aiId (Outcome.httpRejected status detail) st1).error =
      some (if (some status : Option Nat) = some 429 then rateLimitErrorText
            else jsOr msg genericErrorText) := by
  cases detail with
  | null => cases hx
  | absent =>
    have hm := Except.ok.inj hx
    subst hm
    rfl
  | str s =>
    have hm := Except.ok.inj hx
    subst hm
    rfl
  | obj m e j =>
    have hm := Except.ok.inj hx
    subst hm
    rfl

/-- Claim C7, amended: a 429 status sets the fixed rate-limit error message
for every response body except one whose JSON detail is null — there the
typeof-object test passes and reading detail.message raises a TypeError
before the status is attached, so the client sets the TypeError message
instead, for any status; any other non-ok status whose message construction
succeeds sets the body-derived detail message when one is present, and
otherwise a generic failure message (the detail-absent default, an HTTP
template, is never equal to the rate-limit message); rate-limit rejections
are thus distinguishable from generic failures except for these
body-controlled cases. -/
theorem http_error_distinguishes_429 (jp : String → ParsedLine) (now : Nat) (text : String)
    (status : Nat) (detail : Detail) (st : ChatState)
    (h1 : jsTrim text ≠ "") (h2 : st.isLoadingRef = false) :
    (status = 429 → detail ≠ Detail.null →
      (sendMessage jp now text (Outcome.httpRejected status detail) st).state.error =
        some rateLimitErrorText) ∧
    (detail = Detail.null →
      (sendMessage jp now text (Outcome.httpRejected status detail) st).state.error =
        some (jsOr nullDetailTypeErrorText genericErrorText)) ∧
    (status ≠ 429 → ∀ msg, httpThrown status detail = Except.ok msg →
      (sendMessage jp now text (Outcome.httpRejected status detail) st).state.error =
        some (jsOr msg genericErrorText)) ∧
    (∀ s2 msg2, httpThrown s2 Detail.absent = Except.ok msg2 → msg2 ≠ rateLimitErrorText) := by
  refine ⟨?_, ?_, ?_, ?_⟩
  · intro h429 hnn
    subst h429
    obtain ⟨msg, hx⟩ := httpThrown_ok_of_ne_null 429 detail hnn
    rw [sendMessage_admitted jp now text (Outcome.httpRejected 429 detail) st h1 h2]
    show (turnBody jp (now + 1) (Outcome.httpRejected 429 detail) (turnStart now text st)).error = _
    rw [turnBody_httpRejected_ok_error jp (now + 1) 429 detail msg _ hx]
    rw [if_pos rfl]
  · intro hdn
    subst hdn
    rw [sendMessage_admitted jp now text (Outcome.httpRejected status Detail.null) st h1 h2]
    rfl
  · intro hne msg hx
    rw [sendMessage_admitted jp now text (Outcome.httpRejected status detail) st h1 h2]
    show (turnBody jp (now + 1) (Outcome.httpRejected status detail) (turnStart now text st)).error = _
    rw [turnBody_httpRejected_ok_error jp (now + 1) status detail msg _ hx]
    rw [if_neg (fun hc => hne (Option.some.inj hc))]
  · intro s2 msg2 hx hcontra
    have hm := Except.ok.inj hx
    subst hm
    have hd : rateLimitErrorText.data = ("HTTP error! status: ").data ++ (toString s2).data := by
      rw [← hcontra]
      exact str_data_append _ _
    have hh : (rateLimitErrorText.data).head? = some 'H' := by
      rw [hd]
      rfl
    exact absurd hh (by decide)

/-- Witness for the amended C7 theorem: status 429 with an absent detail
sets the rate-limit text, status 429 with a null detail sets the TypeError
message, and status 503 with an absent detail sets the HTTP template. -/
theorem http_error_distinguishes_429_witness :
    jsTrim "Q" ≠ "" ∧
    (sendMessage jpAB 0 "Q" (Outcome.httpRejected 429 Detail.absent) initState).state.error =
      some rateLimitErrorText ∧
    (sendMessage jpAB 0 "Q" (Outcome.httpRejected 429 Detail.null) initState).state.error =
      some (jsOr nullDetailTypeErrorText genericErrorText) ∧
    (sendMessage jpAB 0 "Q" (Outcome.httpRejected 503 Detail.absent) initState).state.error =
      some (jsOr ("HTTP error! status: " ++ toString 503) genericErrorText) :=
  ⟨by decide,
   (http_error_distinguishes_429 jpAB 0 "Q" 429 Detail.absent initState (by decide) rfl).1 rfl
     (fun hc => nomatch hc),
   (http_error_distinguishes_429 jpAB 0 "Q" 429 Detail.null initState (by decide) rfl).2.1 rfl,
   (http_error_distinguishes_429 jpAB 0 "Q" 503 Detail.absent initState (by decide) rfl).2.2.1
     (by decide) ("HTTP error! status: " ++ toString 503) rfl⟩

/-! ## Claim C3 -/

/-- Claim C3: for a stream consumed to completion, the in-flight assistant
message ends holding its prior content followed by the in-order
concatenation of the chunk payloads of the data events (the end-of-stream
marker and unparseable lines contribute nothing), every other message is
untouched, and when the transport delivered exactly the fragments of the
deterministic backend this equals the answer the non-streaming call would
return. -/
theorem stream_concat_refinement (jp : String → ParsedLine) (reads frags : List String)
    (aiId : Nat) (msgs : List Message)
    (htrans : streamChunks jp reads = frags) :
    processReads jp aiId msgs reads =
      msgs.map (fun m =>
        if m.id = aiId then { m with content := m.content ++ nonStreamingReply frags } else m) := by
  subst htrans
  exact processReads_eq jp aiId reads msgs

/-- Witness for C3 on a concrete two-fragment stream with an end marker and
an unparseable line. -/
theorem stream_concat_refinement_witness :
    streamChunks jpAB ["data: a\ndata: [DONE]", "data: b\nnoise"] = ["A", "B"] ∧
    processReads jpAB 2
        [{ id := 1, role := "user", content := "hi" }, { id := 2, role := "assistant", content := "" }]
        ["data: a\ndata: [DONE]", "data: b\nnoise"] =
      ([{ id := 1, role := "user", content := "hi" }, { id := 2, role := "assistant", content := "" }].map
        (fun m => if m.id = 2 then { m with content := m.content ++ nonStreamingReply ["A", "B"] } else m)) :=
  ⟨by decide,
   stream_concat_refinement jpAB ["data: a\ndata: [DONE]", "data: b\nnoise"] ["A", "B"] 2
     [{ id := 1, role := "user", content := "hi" }, { id := 2, role := "assistant", content := "" }]
     (by decide)⟩

/-! ## Claim C8 -/

/-- Claim C8: starting a chat with a name always yields a non-empty session
identifier and starts the chat with a single assistant welcome message
containing the name — via the backend response when the session call
succeeds (per the spec-modelled response contract), and via the locally
generated identifier and name-bearing welcome template when the call fails
or times out. -/
theorem handleStart_session_and_welcome (name companyName jobInput uuid : String) (now : Nat)
    (resp : Option SessionResponse) (st : ChatState)
    (huuid : uuid ≠ "")
    (hresp : ∀ d, resp = some d → specSessionResponseOk name d) :
    (handleStart name companyName jobInput uuid now resp st).sessionId ≠ "" ∧
    (handleStart name companyName jobInput uuid now resp st).hasStarted = true ∧
    ∃ p q, (handleStart name companyName jobInput uuid now resp st).messages =
      [{ id := now, role := "assistant", content := p ++ (name ++ q) }] := by
  cases resp with
  | none => exact ⟨huuid, rfl, "Hi ", welcomeTail companyName, rfl⟩
  | some d =>
    obtain ⟨hid, p, q, hw⟩ := hresp d rfl
    refine ⟨hid, rfl, p, q, ?_⟩
    show [({ id := now, role := "assistant", content := d.welcome_message } : Message)] = _
    rw [hw]

/-- Witness for C8: the local fallback path for the name Dana with no
company, no job text and a failed backend call. -/
theorem handleStart_session_and_welcome_witness :
    ("uuid-local" : String) ≠ "" ∧
    ((handleStart "Dana" "" "" "uuid-local" 7 none initState).sessionId ≠ "" ∧
     (handleStart "Dana" "" "" "uuid-local" 7 none initState).hasStarted = true ∧
     ∃ p q, (handleStart "Dana" "" "" "uuid-local" 7 none initState).messages =
       [{ id := 7, role := "assistant", content := p ++ ("Dana" ++ q) }]) :=
  ⟨by decide,
   handleStart_session_and_welcome "Dana" "" "" "uuid-local" 7 none initState
     (by decide) (fun d h => nomatch h)⟩

/-! ## Claim C5 -/

theorem turnStart_roles (now : Nat) (text : String) (st : ChatState) :
    rolesOf (turnStart now text st).messages = rolesOf st.messages ++ ["user", "assistant"] := by
  show rolesOf (st.messages ++
    [({ id := now, role := "user", content := text } : Message),
     ({ id := now + 1, role := "assistant", content := "" } : Message)]) = _
  rw [rolesOf_append]
  rfl

theorem sendMessage_roles (jp : String → ParsedLine) (now : Nat) (text : String)
    (outcome : Outcome) (st : ChatState) :
    rolesOf (sendMessage jp now text outcome st).state.messages = rolesOf st.messages ∨
    rolesOf (sendMessage jp now text outcome st).state.messages =
      rolesOf st.messages ++ ["user", "assistant"] := by
  by_cases hg : jsTrim text = "" ∨ st.isLoadingRef = true
  · left
    unfold sendMessage
    rw [if_pos hg]
  · have h1 : jsTrim text ≠ "" := fun hc => hg (Or.inl hc)
    have h2 : st.isLoadingRef = false := by
      cases hh : st.isLoadingRef with
      | false => rfl
      | true => exact absurd (Or.inr hh) hg
    rw [sendMessage_admitted jp now text outcome st h1 h2]
    right
    cases outcome with
    | httpRejected status detail =>
      show rolesOf ((turnBody jp (now + 1) (Outcome.httpRejected status detail)
        (turnStart now text st)).messages) = _
      rw [turnBody_httpRejected_messages, rolesOf_map_of_role_eq _ (toFallback_role (now + 1)),
          turnStart_roles]
    | streamed reads ending =>
      cases ending with
      | done =>
        show rolesOf (processReads jp (now + 1) (turnStart now text st).messages reads) = _
        rw [processReads_eq, rolesOf_map_of_role_eq _ (bump_role (now + 1) _), turnStart_roles]
      | aborted =>
        show rolesOf (processReads jp (now + 1) (turnStart now text st).messages reads) = _
        rw [processReads_eq, rolesOf_map_of_role_eq _ (bump_role (now + 1) _), turnStart_roles]
      | failed msg =>
        show rolesOf ((processReads jp (now + 1) (turnStart now text st).messages reads).map
          (toFallback (now + 1))) = _
        rw [rolesOf_map_of_role_eq _ (toFallback_role (now + 1)), processReads_eq,
            rolesOf_map_of_role_eq _ (bump_role (now + 1) _), turnStart_roles]

theorem noConsec_append_ua (l : List String) (h : noConsecAssistant l = true) :
    noConsecAssistant (l ++ ["user", "assistant"]) = true := by
  induction l with
  | nil => decide
  | cons a l ih =>
    cases l with
    | nil =>
      show noConsecAssistant [a, "user", "assistant"] = true
      rw [show noConsecAssistant [a, "user", "assistant"] =
        (if a = "assistant" ∧ "user" = "assistant" then false
         else noConsecAssistant ["user", "assistant"]) from rfl]
      rw [if_neg (fun hc => absurd hc.2 (by decide))]
      decide
    | cons b l2 =>
      rw [show noConsecAssistant (a :: b :: l2) =
        (if a = "assistant" ∧ b = "assistant" then false
         else noConsecAssistant (b :: l2)) from rfl] at h
      rw [show noConsecAssistant ((a :: b :: l2) ++ ["user", "assistant"]) =
        (if a = "assistant" ∧ b = "assistant" then false
         else noConsecAssistant ((b :: l2) ++ ["user", "assistant"])) from rfl]
      by_cases hab : a = "assistant" ∧ b = "assistant"
      · rw [if_pos hab] at h
        cases h
      · rw [if_neg hab] at h
        rw [if_neg hab]
        exact ih h

theorem stepEvent_preserves (st : ChatState) (e : HookEvent)
    (h : noConsecAssistant (rolesOf st.messages) = true) :
    noConsecAssistant (rolesOf (stepEvent st e).messages) = true := by
  cases e with
  | start name companyName jobInput uuid now resp => rfl
  | send jp now text outcome =>
    rcases sendMessage_roles jp now text outcome st with hr | hr
    · show noConsecAssistant (rolesOf (sendMessage jp now text outcome st).state.messages) = true
      rw [hr]
      exact h
    · show noConsecAssistant (rolesOf (sendMessage jp now text outcome st).state.messages) = true
      rw [hr]
      exact noConsec_append_ua _ h

/-- Claim C5: after any interleaving of handleStart and sendMessage calls
from the initial hook state, the message sequence never contains two
consecutive assistant turns: handleStart leaves a single assistant welcome
and every admitted sendMessage appends exactly one user turn immediately
followed by one assistant turn. -/
theorem turns_never_two_assistant (evs : List HookEvent) :
    noConsecAssistant (rolesOf (runEvents evs).messages) = true := by
  have main : ∀ (l : List HookEvent) (st : ChatState),
      noConsecAssistant (rolesOf st.messages) = true →
      noConsecAssistant (rolesOf (l.foldl stepEvent st).messages) = true := by
    intro l
    induction l with
    | nil =>
      intro st h
      exact h
    | cons e l ih =>
      intro st h
      exact ih (stepEvent st e) (stepEvent_preserves st e h)
  exact main evs initState rfl

/-- Witness for C9 at a concrete URL-shaped job input. -/
theorem session_request_job_fields_witness :
    (¬((buildSessionRequest "Dana" "" " HTTPS://jobs.example " "").job_posting ≠ none ∧
       (buildSessionRequest "Dana" "" " HTTPS://jobs.example " "").job_url ≠ none)) ∧
    ((buildSessionRequest "Dana" "" " HTTPS://jobs.example " "").job_url ≠ none ↔
      jsStartsWith (jsToLower (jsTrim " HTTPS://jobs.example ")) "http" = true) :=
  session_request_job_fields "Dana" "" " HTTPS://jobs.example " ""
